import Mathlib

/-!
Verification of the slot-allocation and reminder-scheduling core of the
clinic appointment assistant.

Shallow embedding conventions:

* Dates are modelled as proleptic-Gregorian day ordinals (`Nat`), with
  ordinal 0 = 0001-01-01 so that `ordinal % 7` equals Python's
  `date.weekday()` (0 = Monday).  SQL comparison of `YYYY-MM-DD` TEXT
  columns is lexicographic, which agrees with ordinal order.
* Times of day are minutes since midnight (`Nat`); absolute datetimes
  (reminder `scheduled_time` columns) are seconds (`Nat`).
* SQLite rows become Lean structures whose fields keep the column names
  of `database_manager.py`'s DDL; presentation-only columns (rendered
  HTML, display strings, uuids) are omitted.
* The tables primary-keyed in the DDL (`patients`, `doctors`,
  `appointments`, `reminders`) are modelled as lists; SQL joins are
  modelled as existence filters, which matches join multiplicity when
  the primary keys are duplicate-free (the DDL guarantees this).
* Python's `datetime.strptime` calls are modelled by executable parsers
  over the string's character data.
* The `while` loop of `CalendarIntegration._generate_day_slots` is
  embedded with a fuel parameter; the supplied fuel `end_time + 1`
  strictly exceeds the number of iterations (each iteration advances
  the clock by at least one minute), so the fuel-exhaustion branch is
  unreachable.
-/

/-- One row of the `appointments` table (columns used by the core;
`appointment_date`/`appointment_time` are kept as day ordinal / minutes). -/
structure Appointment where
  appointment_id : Nat
  patient_id : String
  doctor_id : String
  appointment_date : Nat
  appointment_time : Nat
  duration : Nat
  appointment_type : String
  status : String
deriving DecidableEq

/-- One row of the `doctor_schedules` table. -/
structure ScheduleRow where
  doctor_id : String
  date : Nat
  time : Nat
  is_available : Bool
  appointment_type : String
deriving DecidableEq

/-- One row of the `reminders` table. -/
structure Reminder where
  reminder_id : Nat
  appointment_id : Nat
  patient_id : String
  reminder_type : String
  reminder_method : String
  message : Option String
  scheduled_time : Nat
  sent_time : Option Nat
  status : String
  response : Option String
deriving DecidableEq

/-- A slot dictionary produced by `CalendarIntegration._generate_day_slots`
(presentation fields — formatted strings, uuid — omitted). -/
structure Slot where
  date : Nat
  time : Nat
  available : Bool
deriving DecidableEq

/-- The SQLite database state.  `patients` and `doctors` are reduced to
their primary-key columns, which is all the core reads of them (the
dispatcher joins only check row existence; the display columns they
pull are presentation).  `nextAppointmentId`/`nextReminderId` model the
AUTOINCREMENT counters. -/
structure DB where
  patients : List String
  doctors : List String
  appointments : List Appointment
  schedules : List ScheduleRow
  reminders : List Reminder
  nextAppointmentId : Nat
  nextReminderId : Nat
deriving DecidableEq

def dbEmpty : DB := ⟨[], [], [], [], [], 1, 1⟩

/-! ## Calendar configuration (`CalendarIntegration.__init__`) -/

def working_start : Nat := 9 * 60
def working_end : Nat := 17 * 60
def lunch_start : Nat := 12 * 60
def lunch_end : Nat := 13 * 60
def slot_duration : Nat := 30
def buffer_time : Nat := 15
def working_days : List Nat := [0, 1, 2, 3, 4]

/-! ## Slot grid generation (`calendar_integration.py`) -/

/-- The `while` loop of `_generate_day_slots`: walk the clock from
`current` while `current + slot_duration <= end_time`, jumping to
`lunch_end` inside the lunch window, emitting a slot when the
`(date, time)` key is not booked, and stepping by
`slot_duration + buffer_time`.  `fuel` bounds the iterations. -/
def gen_day_loop (dateOrd : Nat) (booked : List (Nat × Nat)) : Nat → Nat → List Slot
  | 0, _ => []
  | fuel + 1, current =>
    if current + slot_duration ≤ working_end then
      if lunch_start ≤ current ∧ current < lunch_end then
        gen_day_loop dateOrd booked fuel lunch_end
      else if (dateOrd, current) ∈ booked then
        gen_day_loop dateOrd booked fuel (current + (slot_duration + buffer_time))
      else
        ⟨dateOrd, current, true⟩ :: gen_day_loop dateOrd booked fuel (current + (slot_duration + buffer_time))
    else []

/-- `CalendarIntegration._generate_day_slots`. -/
def generate_day_slots (dateOrd : Nat) (booked : List (Nat × Nat)) : List Slot :=
  gen_day_loop dateOrd booked (working_end + 1) working_start

/-- The `booked_slots` set built by `generate_available_slots`: the
`(appointment_date, appointment_time)` keys of **all** appointments of
the doctor with `appointment_date >= start_date` — the query has no
filter on `status`. -/
def booked_pairs (db : DB) (doctorId : String) (startDate : Nat) : List (Nat × Nat) :=
  (db.appointments.filter
    (fun a => a.doctor_id == doctorId && decide (startDate ≤ a.appointment_date))).map
    (fun a => (a.appointment_date, a.appointment_time))

/-- The day-range body of `CalendarIntegration.generate_available_slots`
(after the `start_date` string has been parsed): for each offset in
`[0, days_ahead)`, skip non-working weekdays and past dates, then emit
the day's slots filtered against `booked`. -/
def generate_slots (doctorId : String) (startDate daysAhead today : Nat) (db : DB) : List Slot :=
  let booked := booked_pairs db doctorId startDate
  (List.range daysAhead).flatMap (fun dayOffset =>
    let currentDate := startDate + dayOffset
    if currentDate % 7 ∈ working_days then
      if currentDate < today then []
      else generate_day_slots currentDate booked
    else [])

/-! ## Date/time parsing (models of `datetime.strptime`) -/

def digitsToNat (cs : List Char) : Nat :=
  cs.foldl (fun n c => n * 10 + (c.toNat - 48)) 0

/-- A run of `minLen`–`maxLen` decimal digits (the widths `strptime`
accepts for a numeric directive). -/
def parseDigits (cs : List Char) (minLen maxLen : Nat) : Option Nat :=
  if minLen ≤ cs.length ∧ cs.length ≤ maxLen ∧ cs.all (·.isDigit) then
    some (digitsToNat cs)
  else none

/-- Split a character list on a separator character. -/
def splitOnChar (sep : Char) (cs : List Char) : List (List Char) :=
  match cs with
  | [] => [[]]
  | c :: rest =>
    let groups := splitOnChar sep rest
    if c = sep then [] :: groups
    else match groups with
      | [] => [[c]]
      | g :: gs => (c :: g) :: gs

def isLeapYear (y : Nat) : Bool :=
  (y % 4 == 0 && y % 100 != 0) || y % 400 == 0

def daysInMonth (y m : Nat) : Nat :=
  if m = 2 then (if isLeapYear y then 29 else 28)
  else if m = 4 ∨ m = 6 ∨ m = 9 ∨ m = 11 then 30
  else 31

/-- `datetime.strptime(s, "%Y-%m-%d")`: year-month-day with calendar
validation (returns the components on success). -/
def parseDateStr (s : String) : Option (Nat × Nat × Nat) :=
  match splitOnChar '-' s.data with
  | [ys, ms, ds] =>
    match parseDigits ys 4 4, parseDigits ms 1 2, parseDigits ds 1 2 with
    | some y, some m, some d =>
      if 1 ≤ m ∧ m ≤ 12 ∧ 1 ≤ d ∧ d ≤ daysInMonth y m then some (y, m, d) else none
    | _, _, _ => none
  | _ => none

def leapDaysBefore (y : Nat) : Nat :=
  (y - 1) / 4 - (y - 1) / 100 + (y - 1) / 400

def daysBeforeMonth (y m : Nat) : Nat :=
  (List.range (m - 1)).foldl (fun acc i => acc + daysInMonth y (i + 1)) 0

/-- Proleptic-Gregorian day ordinal with 0001-01-01 ↦ 0 (a Monday, so
`dateOrdinal % 7` is Python's `weekday()`). -/
def dateOrdinal (y m d : Nat) : Nat :=
  (y - 1) * 365 + leapDaysBefore y + daysBeforeMonth y m + (d - 1)

/-- `datetime.strptime(t, "%H:%M")` (minutes since midnight). -/
def parseTime24 (s : String) : Option Nat :=
  match splitOnChar ':' s.data with
  | [hs, ms] =>
    match parseDigits hs 1 2, parseDigits ms 1 2 with
    | some h, some m => if h ≤ 23 ∧ m ≤ 59 then some (h * 60 + m) else none
    | _, _ => none
  | _ => none

/-- `datetime.strptime(t, "%I:%M %p")` (12-hour clock with AM/PM). -/
def parseTime12 (s : String) : Option Nat :=
  match splitOnChar ' ' s.data with
  | [ts, ap] =>
    match splitOnChar ':' ts with
    | [hs, ms] =>
      match parseDigits hs 1 2, parseDigits ms 1 2 with
      | some h, some m =>
        if 1 ≤ h ∧ h ≤ 12 ∧ m ≤ 59 then
          if ap = ['A', 'M'] then some ((h % 12) * 60 + m)
          else if ap = ['P', 'M'] then some ((h % 12 + 12) * 60 + m)
          else none
        else none
      | _, _ => none
    | _ => none
  | _ => none

/-- `schedule_appointment_reminders`' parse of
`f"{appointment_date} {appointment_time}"`, trying the 12-hour format
`"%Y-%m-%d %I:%M %p"` first and then `"%Y-%m-%d %H:%M"`; result is the
appointment datetime in seconds. -/
def parseApptDateTime (dateStr timeStr : String) : Option Nat :=
  match parseDateStr dateStr with
  | none => none
  | some (y, m, d) =>
    match parseTime12 timeStr with
    | some t => some (dateOrdinal y m d * 86400 + t * 60)
    | none =>
      match parseTime24 timeStr with
      | some t => some (dateOrdinal y m d * 86400 + t * 60)
      | none => none

/-- `CalendarIntegration.generate_available_slots`: the whole body is
wrapped in `try/except Exception: return []`; in the pure model the
only failure point is `strptime` on `start_date`, so a parse failure
yields the empty list. -/
def generate_available_slots (doctorId : String) (startDate : String)
    (daysAhead today : Nat) (db : DB) : List Slot :=
  match parseDateStr startDate with
  | none => []
  | some (y, m, d) => generate_slots doctorId (dateOrdinal y m d) daysAhead today db

/-! ## Booking (`DatabaseManager.book_appointment`) -/

/-- `DatabaseManager.book_appointment`: unconditionally INSERTs a new
`appointments` row with status `'scheduled'` (no conflict check of any
kind precedes the insert), then sets `is_available = 0` /
`appointment_type = 'Booked'` on the matching `doctor_schedules` rows,
and returns the fresh `appointment_id`.  The `except` branch of the
source (rollback and `return None`) is reachable only through a
database I/O exception, which the pure model does not have. -/
def book_appointment (db : DB) (patientId doctorId : String) (date timeMin : Nat)
    (duration : Nat := 30) (appointmentType : String := "Regular") : Nat × DB :=
  let appointmentId := db.nextAppointmentId
  let appt : Appointment :=
    ⟨appointmentId, patientId, doctorId, date, timeMin, duration, appointmentType, "scheduled"⟩
  let schedules := db.schedules.map (fun srow =>
    if srow.doctor_id == doctorId && srow.date == date && srow.time == timeMin then
      { srow with is_available := false, appointment_type := "Booked" }
    else srow)
  (appointmentId,
   { db with appointments := db.appointments ++ [appt],
             schedules := schedules,
             nextAppointmentId := appointmentId + 1 })

/-- Number of non-cancelled appointments holding the key
`(doctor_id, date, time)` — the measure of the spec's no-double-booking
invariant. -/
def countNonCancelled (db : DB) (doctorId : String) (date timeMin : Nat) : Nat :=
  (db.appointments.filter (fun a =>
    a.doctor_id == doctorId && a.appointment_date == date &&
    a.appointment_time == timeMin && !(a.status == "cancelled"))).length

/-! ## Reminder scheduling (`AutomatedReminderSystem`, `automated_reminder_system.py`) -/

/-- `AutomatedReminderSystem.schedule_appointment_reminders`: parses the
appointment datetime (returning `false` with no insert when both
formats fail) and then unconditionally INSERTs three `'pending'`
reminders with `reminder_method = 'email'`.  The active code computes
the fire-times from the **current** time — `now + 5`, `now + 15` and
`now + 25` seconds ("TESTING MODE"); the production offsets
(T−3 days, T−1 day, T−2 hours) are present only in comments. -/
def schedule_appointment_reminders (db : DB) (appointmentId : Nat) (patientId : String)
    (appointmentDate appointmentTime : String) (now : Nat) : Bool × DB :=
  match parseApptDateTime appointmentDate appointmentTime with
  | none => (false, db)
  | some _apptSeconds =>
    let rid := db.nextReminderId
    let mk : Nat → String → Nat → Reminder := fun i ty sched =>
      { reminder_id := rid + i, appointment_id := appointmentId, patient_id := patientId,
        reminder_type := ty, reminder_method := "email", message := none,
        scheduled_time := sched, sent_time := none, status := "pending", response := none }
    (true,
     { db with
        reminders := db.reminders ++
          [mk 0 "initial" (now + 5), mk 1 "follow_up_1" (now + 15), mk 2 "follow_up_2" (now + 25)],
        nextReminderId := rid + 3 })

/-- Number of `reminders` rows for a given `(appointment_id, reminder_type)`
pair. -/
def reminderTypeCount (db : DB) (appointmentId : Nat) (ty : String) : Nat :=
  (db.reminders.filter (fun r =>
    r.appointment_id == appointmentId && r.reminder_type == ty)).length

/-! ## Reminder dispatch (`AutomatedReminderSystem.check_and_send_reminders`) -/

/-- The JOIN conditions of the dispatcher's query: the reminder's
`patient_id`, `appointment_id` and the appointment's `doctor_id` must
resolve.  Row existence is all the joins can filter on, given the
primary keys of the DDL. -/
def joinsOk (db : DB) (r : Reminder) : Bool :=
  db.patients.contains r.patient_id &&
  db.appointments.any (fun a =>
    a.appointment_id == r.appointment_id && db.doctors.contains a.doctor_id)

/-- The dispatcher's selection query: all reminders with
`status = 'pending'` that join to a patient, an appointment and a
doctor, ordered by `scheduled_time`.  The query carries **no**
condition on `scheduled_time` relative to the current time.
(`ORDER BY` is modelled by insertion sort: any sorted permutation of
the filtered rows.) -/
def select_pending_reminders (db : DB) : List Reminder :=
  (db.reminders.filter (fun r => r.status == "pending" && joinsOk db r)).insertionSort
    (fun a b => a.scheduled_time ≤ b.scheduled_time)

/-- `AutomatedReminderSystem.mark_reminder_sent`. -/
def mark_reminder_sent (rid : Nat) (now : Nat) (db : DB) : DB :=
  { db with reminders := db.reminders.map (fun r =>
      if r.reminder_id == rid then { r with status := "sent", sent_time := some now } else r) }

/-- `AutomatedReminderSystem.mark_reminder_failed`. -/
def mark_reminder_failed (rid : Nat) (now : Nat) (err : String) (db : DB) : DB :=
  { db with reminders := db.reminders.map (fun r =>
      if r.reminder_id == rid then
        { r with status := "failed", sent_time := some now, response := some err }
      else r) }

/-- `AutomatedReminderSystem.check_and_send_reminders`: one dispatcher
sweep.  For each selected reminder the per-type send helper
(`send_initial_reminder` / `send_follow_up_1_reminder` /
`send_follow_up_2_reminder`) renders the content and calls the
Notifier, here abstracted to `notify`; each helper catches its own
exceptions and returns a Bool, and the loop **discards that Bool** and
calls `mark_reminder_sent` unconditionally (the `except` branch that
would call `mark_reminder_failed` is reachable only by an exception
escaping the helpers, which their catch-all handlers prevent).  The
result pairs the final database with the log of reminder ids for which
a delivery attempt was made, in processing order. -/
def check_and_send_reminders (notify : Reminder → Bool) (now : Nat) (db : DB) :
    DB × List Nat :=
  (select_pending_reminders db).foldl
    (fun acc r =>
      let _sendResult := notify r
      (mark_reminder_sent r.reminder_id now acc.1, acc.2 ++ [r.reminder_id]))
    (db, [])

/-! ## Concrete database fixtures used by the closed theorems -/

def dbC3 : DB :=
  { patients := ["P1"], doctors := ["D1"],
    appointments := [⟨1, "P1", "D1", 7000, 540, 30, "Regular", "scheduled"⟩],
    schedules := [],
    reminders := [⟨1, 1, "P1", "initial", "email", none, 1000000000, none, "pending", none⟩],
    nextAppointmentId := 2, nextReminderId := 2 }

def dbC4 : DB :=
  { patients := ["P1"], doctors := ["D1"],
    appointments := [⟨1, "P1", "D1", 7000, 540, 30, "Regular", "scheduled"⟩],
    schedules := [],
    reminders := [⟨1, 1, "P1", "initial", "email", none, 100, none, "pending", none⟩],
    nextAppointmentId := 2, nextReminderId := 2 }

def dbC5 : DB :=
  { patients := ["P2"], doctors := ["D2"],
    appointments := [⟨4, "P2", "D2", 7001, 600, 30, "Regular", "scheduled"⟩],
    schedules := [],
    reminders := [⟨9, 4, "P2", "follow_up_1", "email", none, 150, none, "pending", none⟩],
    nextAppointmentId := 5, nextReminderId := 10 }

def dbC7 : DB :=
  { dbEmpty with appointments := [⟨1, "P1", "D1", 7000, 540, 30, "Regular", "cancelled"⟩] }

/-! ## Helper lemmas: slot generation -/

/-- Every slot emitted by the day loop carries the loop's date, has a
key outside the booked set, and fits before the end of the working
day. -/
theorem mem_gen_day_loop {dateOrd : Nat} {booked : List (Nat × Nat)} :
    ∀ (fuel cur : Nat) {s : Slot}, s ∈ gen_day_loop dateOrd booked fuel cur →
      s.date = dateOrd ∧ (dateOrd, s.time) ∉ booked ∧ s.time + slot_duration ≤ working_end := by
  intro fuel
  induction fuel with
  | zero => intro cur s h; simp [gen_day_loop] at h
  | succ n ih =>
    intro cur s h
    simp only [gen_day_loop] at h
    split at h
    · split at h
      · exact ih _ h
      · split at h
        · exact ih _ h
        · rcases List.mem_cons.mp h with rfl | h'
          · exact ⟨rfl, by assumption, by assumption⟩
          · exact ih _ h'
    · simp at h

/-- Every slot returned by `generate_slots` lies on or after the start
date and its `(date, time)` key is not among the doctor's booked
pairs. -/
theorem mem_generate_slots {doctorId : String} {startDate daysAhead today : Nat} {db : DB}
    {s : Slot} (hs : s ∈ generate_slots doctorId startDate daysAhead today db) :
    startDate ≤ s.date ∧ (s.date, s.time) ∉ booked_pairs db doctorId startDate := by
  simp only [generate_slots, List.mem_flatMap] at hs
  obtain ⟨off, _hoff, hmem⟩ := hs
  split at hmem
  · split at hmem
    · simp at hmem
    · obtain ⟨hd, hnb, _⟩ := mem_gen_day_loop _ _ hmem
      rw [hd]
      exact ⟨Nat.le_add_right _ _, hnb⟩
  · simp at hmem

/-! ## Claim theorems: slot grid and booking -/

/-- C9: with the working-hours profile 09:00–17:00, lunch 12:00–13:00,
30-minute slots and a 15-minute buffer, a working weekday's grid starts
at 09:00 (540 min), contains no start time inside the lunch window
[720, 780), resumes at 13:00 (780), and every slot's 30-minute
interval ends by 17:00 (1020). -/
theorem slot_grid_daily_profile :
    ((generate_slots "DOC" 7000 1 7000 dbEmpty).map (·.time)) =
      [540, 585, 630, 675, 780, 825, 870, 915, 960] ∧
    ((generate_slots "DOC" 7000 1 7000 dbEmpty).map (·.time)).head? = some 540 ∧
    (∀ s ∈ generate_slots "DOC" 7000 1 7000 dbEmpty, ¬(720 ≤ s.time ∧ s.time < 780)) ∧
    780 ∈ (generate_slots "DOC" 7000 1 7000 dbEmpty).map (·.time) ∧
    (∀ s ∈ generate_slots "DOC" 7000 1 7000 dbEmpty, s.time + 30 ≤ 1020) := by
  decide

/-- C10: `generate_available_slots` returns `[]` (rather than
propagating an error) whenever its `start_date` string fails to parse
as `YYYY-MM-DD`. -/
theorem generate_available_slots_error_to_empty (doctorId startDate : String)
    (daysAhead today : Nat) (db : DB) (h : parseDateStr startDate = none) :
    generate_available_slots doctorId startDate daysAhead today db = [] := by
  unfold generate_available_slots
  rw [h]

theorem generate_available_slots_error_to_empty_witness :
    parseDateStr "not-a-date" = none ∧
    generate_available_slots "DOC" "not-a-date" 14 7000 dbEmpty = [] :=
  ⟨by decide,
   generate_available_slots_error_to_empty "DOC" "not-a-date" 14 7000 dbEmpty (by decide)⟩

/-- C1 counterexample: booking the same (doctor, date, time) key twice
in a row succeeds both times — the second call returns a fresh
appointment id (2) instead of failing with `SlotConflict`, and two
non-cancelled appointments for the key result. -/
theorem double_booking_counterexample :
    (book_appointment (book_appointment dbEmpty "P1" "D1" 20000 540).2 "P2" "D1" 20000 540).1
      = 2 ∧
    countNonCancelled
      (book_appointment (book_appointment dbEmpty "P1" "D1" 20000 540).2 "P2" "D1" 20000 540).2
      "D1" 20000 540 = 2 := by
  decide

/-- C1 amended: `book_appointment` performs no conflict check and the
`appointments` DDL has no uniqueness constraint over
(doctor_id, date, time): a second booking for an already-booked key
also succeeds, returning the next appointment id and inserting a
second appointment row, so the count of non-cancelled appointments for
the key grows to two. -/
theorem book_appointment_no_conflict_check (db : DB) (p1 p2 doctorId : String)
    (d t dur1 dur2 : Nat) (ty1 ty2 : String) :
    (book_appointment (book_appointment db p1 doctorId d t dur1 ty1).2 p2 doctorId d t dur2 ty2).1
        = db.nextAppointmentId + 1 ∧
    countNonCancelled
        (book_appointment (book_appointment db p1 doctorId d t dur1 ty1).2 p2 doctorId d t dur2 ty2).2
        doctorId d t
      = countNonCancelled db doctorId d t + 2 := by
  refine ⟨rfl, ?_⟩
  simp [book_appointment, countNonCancelled, List.filter_append, List.filter_cons]

/-- C6: once `book_appointment` has succeeded for
(doctor, date, time), no subsequent `generate_slots` call for that
doctor returns a slot with that date and time. -/
theorem booked_slot_not_reoffered (db : DB) (patientId doctorId : String)
    (d t dur : Nat) (ty : String) (startDate daysAhead today : Nat) (s : Slot)
    (hs : s ∈ generate_slots doctorId startDate daysAhead today
            (book_appointment db patientId doctorId d t dur ty).2) :
    ¬(s.date = d ∧ s.time = t) := by
  rintro ⟨hd, ht⟩
  obtain ⟨hge, hnb⟩ := mem_generate_slots hs
  apply hnb
  refine List.mem_map.mpr
    ⟨⟨db.nextAppointmentId, patientId, doctorId, d, t, dur, ty, "scheduled"⟩,
     List.mem_filter.mpr ⟨?_, ?_⟩, ?_⟩
  · simp [book_appointment]
  · simp only []
    rw [← hd] at *
    simp [hge]
  · rw [hd, ht]

theorem booked_slot_not_reoffered_witness :
    (⟨7000, 585, true⟩ : Slot) ∈ generate_slots "D1" 7000 1 7000
        (book_appointment dbEmpty "P1" "D1" 7000 540 30 "Regular").2 ∧
    ¬((7000 : Nat) = 7000 ∧ (585 : Nat) = 540) :=
  ⟨by decide,
   booked_slot_not_reoffered dbEmpty "P1" "D1" 7000 540 30 "Regular" 7000 1 7000
     ⟨7000, 585, true⟩ (by decide)⟩


/-- C7 counterexample: with no appointments the generator offers 09:00
(540) on day 7000, but with a **cancelled** appointment occupying
(D1, 7000, 540) the slot is still excluded — the claim requires it to
appear again after cancellation. -/
theorem cancelled_slot_not_released_counterexample :
    540 ∈ (generate_slots "D1" 7000 1 7000 dbEmpty).map (·.time) ∧
    540 ∉ (generate_slots "D1" 7000 1 7000 dbC7).map (·.time) := by
  decide

/-- C7 amended: setting an appointment's status to `cancelled` does
NOT release its slot: the `booked_slots` query of
`generate_available_slots` filters only on doctor and date, never on
status, so the (date, time) of a cancelled appointment is still
excluded from every covering slot-generation call, and no mechanism
re-offers a booked slot. -/
theorem cancelled_appointment_still_blocks_slot (db : DB) (doctorId : String)
    (startDate daysAhead today : Nat) (a : Appointment)
    (ha : a ∈ db.appointments) (hdoc : a.doctor_id = doctorId)
    (_hcancelled : a.status = "cancelled") (hge : startDate ≤ a.appointment_date) :
    ∀ s ∈ generate_slots doctorId startDate daysAhead today db,
      ¬(s.date = a.appointment_date ∧ s.time = a.appointment_time) := by
  rintro s hs ⟨hd, ht⟩
  obtain ⟨_, hnb⟩ := mem_generate_slots hs
  apply hnb
  refine List.mem_map.mpr ⟨a, List.mem_filter.mpr ⟨ha, ?_⟩, ?_⟩
  · simp [hdoc, hge]
  · rw [hd, ht]

theorem cancelled_appointment_still_blocks_slot_witness :
    (⟨1, "P1", "D1", 7000, 540, 30, "Regular", "cancelled"⟩ : Appointment) ∈ dbC7.appointments ∧
    (∀ s ∈ generate_slots "D1" 7000 1 7000 dbC7, ¬(s.date = 7000 ∧ s.time = 540)) :=
  ⟨by decide,
   cancelled_appointment_still_blocks_slot dbC7 "D1" 7000 1 7000
     ⟨1, "P1", "D1", 7000, 540, 30, "Regular", "cancelled"⟩ (by decide) rfl rfl (by decide)⟩

/-! ## Helper lemmas: dispatcher sweep -/

/-- The sweep's delivery-attempt log is exactly the ids of the selected
reminders, in order. -/
theorem check_and_send_log (notify : Reminder → Bool) (now : Nat) (db : DB) :
    (check_and_send_reminders notify now db).2 =
      (select_pending_reminders db).map (·.reminder_id) := by
  unfold check_and_send_reminders
  generalize select_pending_reminders db = rs
  suffices h : ∀ (d : DB) (l : List Nat),
      (rs.foldl (fun acc r =>
        (mark_reminder_sent r.reminder_id now acc.1, acc.2 ++ [r.reminder_id])) (d, l)).2
        = l ++ rs.map (·.reminder_id) by
    exact h db []
  induction rs with
  | nil => intro d l; simp
  | cons r rs ih => intro d l; simp [ih]

/-- The sweep leaves every table except `reminders` unchanged and marks
exactly the selected reminders `sent` (with `sent_time = now`),
regardless of the Notifier's result. -/
theorem check_and_send_db (notify : Reminder → Bool) (now : Nat) (db : DB) :
    (check_and_send_reminders notify now db).1 =
      { db with reminders := db.reminders.map (fun r =>
          if (select_pending_reminders db).any (fun s => s.reminder_id == r.reminder_id) then
            { r with status := "sent", sent_time := some now }
          else r) } := by
  unfold check_and_send_reminders
  generalize select_pending_reminders db = rs
  suffices h : ∀ (d : DB) (l : List Nat),
      (rs.foldl (fun acc r =>
        (mark_reminder_sent r.reminder_id now acc.1, acc.2 ++ [r.reminder_id])) (d, l)).1
        = { d with reminders := d.reminders.map (fun r =>
            if rs.any (fun s => s.reminder_id == r.reminder_id) then
              { r with status := "sent", sent_time := some now }
            else r) } by
    exact h db []
  induction rs with
  | nil => intro d l; simp
  | cons x rs ih =>
    intro d l
    rw [List.foldl_cons, ih]
    simp only [mark_reminder_sent, List.map_map]
    congr 1
    apply List.map_congr_left
    intro r _
    by_cases hx : (r.reminder_id == x.reminder_id) = true
    · have hx2 : (x.reminder_id == r.reminder_id) = true := by
        rw [eq_of_beq hx]; exact beq_self_eq_true _
      simp only [Function.comp, hx, hx2, List.any_cons, Bool.true_or, if_true]
      split <;> rfl
    · have hne : r.reminder_id ≠ x.reminder_id := fun h => hx (by rw [h]; exact beq_self_eq_true _)
      have hx1 : (r.reminder_id == x.reminder_id) = false := beq_eq_false_iff_ne.mpr hne
      have hx2 : (x.reminder_id == r.reminder_id) = false := beq_eq_false_iff_ne.mpr (Ne.symm hne)
      simp [Function.comp, hx1, hx2]

/-- Membership in the dispatcher selection, unfolded: exactly the
pending reminders whose joins resolve. -/
theorem mem_select_pending_iff (db : DB) (r : Reminder) :
    r ∈ select_pending_reminders db ↔
      r ∈ db.reminders ∧ r.status = "pending" ∧ joinsOk db r = true := by
  unfold select_pending_reminders
  rw [(List.perm_insertionSort _ _).mem_iff, List.mem_filter]
  simp [and_assoc]

/-! ## Claim theorems: reminder dispatcher selection -/


/-- C3 counterexample: `dbC3` holds one pending reminder scheduled at
time 1000000000; a sweep taken when the current time is 500 (indeed at
any current time — the selection query never reads the clock) still
selects it, where the claim says a pending reminder with
`scheduled_time` in the future is not selected. -/
theorem future_reminder_selected_counterexample :
    (select_pending_reminders dbC3).map (·.reminder_id) = [1] ∧
    (∀ r ∈ select_pending_reminders dbC3, 500 < r.scheduled_time) := by
  decide

/-- C3 amended: a dispatcher sweep selects exactly the reminders whose
status is `pending` (and which join to a patient, an appointment and a
doctor), with **no** condition on `scheduled_time`: every overdue
pending reminder is selected, but a pending reminder scheduled in the
future is selected just the same — the query never compares
`scheduled_time` with the current time. -/
theorem sweep_selects_all_pending (db : DB) (r : Reminder) :
    r ∈ select_pending_reminders db ↔
      r ∈ db.reminders ∧ r.status = "pending" ∧ joinsOk db r = true :=
  mem_select_pending_iff db r


/-- C4: evaluation at the failing input — `dbC4` holds one due pending
reminder and the Notifier reports failure for every delivery attempt
(`fun _ => false`), yet after the sweep the reminder's status is
`sent` with `sent_time` set and no error in `response`: the loop
discards the send helpers' Bool result and calls `mark_reminder_sent`
unconditionally, so a failed delivery is still recorded as `sent`. -/
theorem failed_delivery_marked_sent :
    ((check_and_send_reminders (fun _ => false) 200 dbC4).1.reminders.map
        (fun r => (r.reminder_id, r.status, r.sent_time, r.response))) =
      [(1, "sent", some 200, (none : Option String))] ∧
    (check_and_send_reminders (fun _ => false) 200 dbC4).2 = [1] := by
  decide

/-- C5: at-most-once delivery.  With duplicate-free reminder ids (the
DDL's primary key): after one sweep nothing remains selectable, a
second sweep with no time advance makes no delivery attempt, every
pending (and joinable) reminder receives exactly one delivery attempt
across the two sweeps, and a reminder with no recorded delivery
attempt is left untouched — status leaves `pending` only together with
a recorded delivery attempt. -/
theorem dispatcher_at_most_once (notify : Reminder → Bool) (now now2 : Nat) (db : DB)
    (hids : (db.reminders.map (·.reminder_id)).Nodup) :
    select_pending_reminders (check_and_send_reminders notify now db).1 = [] ∧
    (check_and_send_reminders notify now2 (check_and_send_reminders notify now db).1).2 = [] ∧
    (∀ r ∈ db.reminders, r.status = "pending" → joinsOk db r = true →
      ((check_and_send_reminders notify now db).2 ++
        (check_and_send_reminders notify now2 (check_and_send_reminders notify now db).1).2).count
          r.reminder_id = 1) ∧
    (∀ r ∈ db.reminders, r.reminder_id ∉ (check_and_send_reminders notify now db).2 →
      r ∈ (check_and_send_reminders notify now db).1.reminders) := by
  have hsel_empty : select_pending_reminders (check_and_send_reminders notify now db).1 = [] := by
    apply List.eq_nil_iff_forall_not_mem.mpr
    intro r' hr'
    rw [mem_select_pending_iff] at hr'
    obtain ⟨hmem, hpend, hjoin⟩ := hr'
    rw [check_and_send_db] at hmem hjoin
    have hmem' : r' ∈ db.reminders.map (fun r =>
        if (select_pending_reminders db).any (fun s => s.reminder_id == r.reminder_id) then
          { r with status := "sent", sent_time := some now }
        else r) := hmem
    have hjoin' : joinsOk db r' = true := hjoin
    obtain ⟨r, hr, heq⟩ := List.mem_map.mp hmem'
    by_cases hany : ((select_pending_reminders db).any
        (fun s => s.reminder_id == r.reminder_id)) = true
    · rw [if_pos hany] at heq
      rw [← heq] at hpend
      simp at hpend
    · rw [if_neg hany] at heq
      subst heq
      exact hany (List.any_eq_true.mpr
        ⟨r, (mem_select_pending_iff db r).mpr ⟨hr, hpend, hjoin'⟩, beq_self_eq_true _⟩)
  refine ⟨hsel_empty, ?_, ?_, ?_⟩
  · rw [check_and_send_log, hsel_empty]
    rfl
  · intro r hr hpend hjoin
    rw [check_and_send_log, check_and_send_log, hsel_empty]
    simp only [List.map_nil, List.append_nil]
    have hrsel : r ∈ select_pending_reminders db :=
      (mem_select_pending_iff db r).mpr ⟨hr, hpend, hjoin⟩
    have hperm := List.perm_insertionSort
      (fun a b : Reminder => a.scheduled_time ≤ b.scheduled_time)
      (db.reminders.filter (fun r => r.status == "pending" && joinsOk db r))
    have hnd : ((select_pending_reminders db).map (·.reminder_id)).Nodup := by
      apply (hperm.map (·.reminder_id)).nodup_iff.mpr
      exact hids.sublist ((List.filter_sublist _).map _)
    exact List.count_eq_one_of_mem hnd (List.mem_map_of_mem _ hrsel)
  · intro r hr hnotin
    rw [check_and_send_log] at hnotin
    rw [check_and_send_db]
    have hany : ¬(((select_pending_reminders db).any
        (fun s => s.reminder_id == r.reminder_id)) = true) := by
      intro hany
      obtain ⟨s, hs, hsid⟩ := List.any_eq_true.mp hany
      exact hnotin (eq_of_beq hsid ▸ List.mem_map_of_mem (·.reminder_id) hs)
    exact List.mem_map.mpr ⟨r, hr, by rw [if_neg hany]⟩


theorem dispatcher_at_most_once_witness :
    ((dbC5.reminders.map (·.reminder_id)).Nodup) ∧
    (select_pending_reminders (check_and_send_reminders (fun _ => true) 200 dbC5).1 = [] ∧
     (check_and_send_reminders (fun _ => true) 300
        (check_and_send_reminders (fun _ => true) 200 dbC5).1).2 = [] ∧
     (∀ r ∈ dbC5.reminders, r.status = "pending" → joinsOk dbC5 r = true →
       ((check_and_send_reminders (fun _ => true) 200 dbC5).2 ++
         (check_and_send_reminders (fun _ => true) 300
           (check_and_send_reminders (fun _ => true) 200 dbC5).1).2).count r.reminder_id = 1) ∧
     (∀ r ∈ dbC5.reminders, r.reminder_id ∉ (check_and_send_reminders (fun _ => true) 200 dbC5).2 →
       r ∈ (check_and_send_reminders (fun _ => true) 200 dbC5).1.reminders)) :=
  ⟨by decide, dispatcher_at_most_once (fun _ => true) 200 300 dbC5 (by decide)⟩

/-! ## Claim theorems: reminder scheduling -/

/-- C2: evaluation at the failing input — scheduling reminders for an
appointment on 2025-09-08 09:00 (datetime 63892918800 s) at current
time 1000000 s creates exactly three pending reminders with the types
`initial`, `follow_up_1`, `follow_up_2`, but their fire-times are
`now+5`, `now+15`, `now+25` seconds (the source's "TESTING MODE"
offsets), not the appointment datetime minus 3 days / 1 day / 2 hours
that the claim — and the source's own user-facing confirmation message
and commented-out "production timings" — state. -/
theorem reminder_fire_times_are_test_offsets :
    parseApptDateTime "2025-09-08" "09:00" = some 63892918800 ∧
    (schedule_appointment_reminders dbEmpty 1 "P1" "2025-09-08" "09:00" 1000000).1 = true ∧
    ((schedule_appointment_reminders dbEmpty 1 "P1" "2025-09-08" "09:00" 1000000).2.reminders.map
        (fun r => (r.reminder_type, r.scheduled_time, r.status))) =
      [("initial", 1000005, "pending"), ("follow_up_1", 1000015, "pending"),
       ("follow_up_2", 1000025, "pending")] ∧
    1000005 ≠ 63892918800 - 3 * 86400 ∧
    1000015 ≠ 63892918800 - 86400 ∧
    1000025 ≠ 63892918800 - 2 * 3600 := by
  decide

/-- C8 counterexample: running `schedule_appointment_reminders` twice
for the same appointment id leaves **two** rows per
(appointment_id, reminder_type) pair — no uniqueness constraint stops
the duplicate inserts, where the claim says at most one row can
exist. -/
theorem duplicate_reminder_rows_counterexample :
    reminderTypeCount
        (schedule_appointment_reminders
          (schedule_appointment_reminders dbEmpty 1 "P1" "2025-09-08" "09:00" 1000).2
          1 "P1" "2025-09-08" "09:00" 2000).2 1 "initial" = 2 ∧
    reminderTypeCount
        (schedule_appointment_reminders
          (schedule_appointment_reminders dbEmpty 1 "P1" "2025-09-08" "09:00" 1000).2
          1 "P1" "2025-09-08" "09:00" 2000).2 1 "follow_up_1" = 2 ∧
    reminderTypeCount
        (schedule_appointment_reminders
          (schedule_appointment_reminders dbEmpty 1 "P1" "2025-09-08" "09:00" 1000).2
          1 "P1" "2025-09-08" "09:00" 2000).2 1 "follow_up_2" = 2 := by
  decide

/-- C8 amended: the `reminders` DDL has no uniqueness constraint over
(appointment_id, reminder_type) and `schedule_appointment_reminders`
inserts unconditionally: every successful call adds one more row per
reminder type for its appointment, so repeating the scheduling
operation creates duplicate reminders of each type. -/
theorem schedule_reminders_no_uniqueness (db : DB) (apptId : Nat)
    (patientId dateStr timeStr : String) (now : Nat)
    (h : (schedule_appointment_reminders db apptId patientId dateStr timeStr now).1 = true) :
    reminderTypeCount (schedule_appointment_reminders db apptId patientId dateStr timeStr now).2
        apptId "initial" = reminderTypeCount db apptId "initial" + 1 ∧
    reminderTypeCount (schedule_appointment_reminders db apptId patientId dateStr timeStr now).2
        apptId "follow_up_1" = reminderTypeCount db apptId "follow_up_1" + 1 ∧
    reminderTypeCount (schedule_appointment_reminders db apptId patientId dateStr timeStr now).2
        apptId "follow_up_2" = reminderTypeCount db apptId "follow_up_2" + 1 := by
  cases hp : parseApptDateTime dateStr timeStr with
  | none => simp [schedule_appointment_reminders, hp] at h
  | some T =>
    refine ⟨?_, ?_, ?_⟩ <;>
      simp [schedule_appointment_reminders, hp, reminderTypeCount, List.filter_append]

theorem schedule_reminders_no_uniqueness_witness :
    (schedule_appointment_reminders dbEmpty 1 "P1" "2025-09-08" "09:00" 1000).1 = true ∧
    (reminderTypeCount (schedule_appointment_reminders dbEmpty 1 "P1" "2025-09-08" "09:00" 1000).2
        1 "initial" = reminderTypeCount dbEmpty 1 "initial" + 1 ∧
     reminderTypeCount (schedule_appointment_reminders dbEmpty 1 "P1" "2025-09-08" "09:00" 1000).2
        1 "follow_up_1" = reminderTypeCount dbEmpty 1 "follow_up_1" + 1 ∧
     reminderTypeCount (schedule_appointment_reminders dbEmpty 1 "P1" "2025-09-08" "09:00" 1000).2
        1 "follow_up_2" = reminderTypeCount dbEmpty 1 "follow_up_2" + 1) :=
  ⟨by decide,
   schedule_reminders_no_uniqueness dbEmpty 1 "P1" "2025-09-08" "09:00" 1000 (by decide)⟩
